import Mathlib

/-!
Shallow embedding of the G233 flash device (`src/hw/block/m25p80_g233.c`)
and the G233 SPI controller (`src/hw/ssi/g233_spi.c`), with theorems
checking the natural-language specification against the code.

Machine integers are modelled as `Nat` with explicit `% 2^32` where the C
code performs 32-bit arithmetic that can wrap, and `% 256` where a value is
stored into a `uint8_t`.  Byte arrays (`storage`, `page_buf`) are modelled
as functions `Nat → Nat`.
-/

namespace G233

/-- Flash command-processor states, mirroring the C `FlashState` enum. -/
inductive FlashState where
  | STATE_IDLE
  | STATE_READING_CMD
  | STATE_READING_ID
  | STATE_READING_DATA
  | STATE_READING_SR
  | STATE_WRITING_SR
  | STATE_WRITING_DATA
  | STATE_ERASING
deriving DecidableEq, Repr

/-- Device state of the G233 flash, mirroring `struct G233FlashState`
(minus the QOM/block-backend plumbing, which is out of scope). -/
structure G233FlashState where
  storage : Nat → Nat
  size : Nat
  jedec_id : Nat → Nat
  state : FlashState
  cmd : Nat
  addr : Nat
  addr_bytes : Nat
  data_pos : Nat
  status_reg : Nat
  write_enable : Bool
  page_buf : Nat → Nat
  page_pos : Nat

/-- Flash command opcode `CMD_JEDEC_ID`. -/
def CMD_JEDEC_ID : Nat := 0x9F

/-- Flash command opcode `CMD_READ`. -/
def CMD_READ : Nat := 0x03

/-- Flash command opcode `CMD_WREN`. -/
def CMD_WREN : Nat := 0x06

/-- Flash command opcode `CMD_WRDI`. -/
def CMD_WRDI : Nat := 0x04

/-- Flash command opcode `CMD_RDSR`. -/
def CMD_RDSR : Nat := 0x05

/-- Flash command opcode `CMD_WRSR`. -/
def CMD_WRSR : Nat := 0x01

/-- Flash command opcode `CMD_PP` (page program). -/
def CMD_PP : Nat := 0x02

/-- Flash command opcode `CMD_SE` (sector erase). -/
def CMD_SE : Nat := 0x20

/-- Body of `g233_flash_transfer` before the final `return rx & 0xFF`
masking: returns the updated device state and the raw `rx` value. -/
def g233_flash_transfer_step (s : G233FlashState) (tx : Nat) :
    G233FlashState × Nat :=
  match s.state with
  | .STATE_IDLE =>
    let s1 := { s with cmd := tx % 256 }
    if tx = CMD_JEDEC_ID then
      ({ s1 with state := .STATE_READING_ID, data_pos := 0 }, 0)
    else if tx = CMD_RDSR then
      ({ s1 with state := .STATE_READING_SR }, 0)
    else if tx = CMD_WREN then
      ({ s1 with write_enable := true }, 0)
    else if tx = CMD_WRDI then
      ({ s1 with write_enable := false }, 0)
    else if tx = CMD_READ then
      ({ s1 with state := .STATE_READING_CMD, addr := 0, addr_bytes := 0 }, 0)
    else if tx = CMD_PP then
      if s1.write_enable then
        ({ s1 with state := .STATE_READING_CMD, addr := 0, addr_bytes := 0,
                   page_pos := 0 }, 0)
      else (s1, 0)
    else if tx = CMD_SE then
      if s1.write_enable then
        ({ s1 with state := .STATE_READING_CMD, addr := 0, addr_bytes := 0 }, 0)
      else (s1, 0)
    else (s1, 0)
  | .STATE_READING_ID =>
    if s.data_pos < 3 then
      ({ s with data_pos := s.data_pos + 1 }, s.jedec_id s.data_pos)
    else (s, 0xFF)
  | .STATE_READING_SR =>
    ({ s with state := .STATE_IDLE }, s.status_reg)
  | .STATE_READING_CMD =>
    let addr := ((s.addr <<< 8) ||| tx) % 4294967296
    let s1 := { s with addr := addr, addr_bytes := s.addr_bytes + 1 }
    if s1.addr_bytes ≥ 3 then
      if s1.cmd = CMD_READ then
        ({ s1 with state := .STATE_READING_DATA, data_pos := 0 }, 0)
      else if s1.cmd = CMD_PP then
        ({ s1 with state := .STATE_WRITING_DATA }, 0)
      else if s1.cmd = CMD_SE then
        let sector_addr := addr &&& 0xFFFFF000
        if sector_addr < s1.size then
          ({ s1 with
              storage := fun a =>
                if sector_addr ≤ a ∧ a < sector_addr + 4096 then 0xFF
                else s1.storage a,
              write_enable := false, state := .STATE_IDLE }, 0)
        else ({ s1 with write_enable := false, state := .STATE_IDLE }, 0)
      else (s1, 0)
    else (s1, 0)
  | .STATE_READING_DATA =>
    let idx := (s.addr + s.data_pos) % 4294967296
    let rx := if idx < s.size then s.storage idx else 0xFF
    ({ s with data_pos := s.data_pos + 1 }, rx)
  | .STATE_WRITING_DATA =>
    if s.page_pos < 256 then
      ({ s with
          page_buf := fun i => if i = s.page_pos then tx % 256 else s.page_buf i,
          page_pos := s.page_pos + 1 }, 0)
    else (s, 0)
  | _ =>
    ({ s with state := .STATE_IDLE }, 0)

/-- `g233_flash_transfer`: one SSI byte transfer (returns `rx & 0xFF`). -/
def g233_flash_transfer (s : G233FlashState) (tx : Nat) :
    G233FlashState × Nat :=
  let r := g233_flash_transfer_step s tx
  (r.1, r.2 &&& 0xFF)

/-- `g233_flash_set_cs`: chip-select change.  `select = false` (deassert)
commits a pending page program and resets the transaction state. -/
def g233_flash_set_cs (s : G233FlashState) (select : Bool) : G233FlashState :=
  if !select then
    let s1 :=
      if s.state = .STATE_WRITING_DATA ∧ s.page_pos > 0 then
        let s0 :=
          if (s.addr + s.page_pos) % 4294967296 ≤ s.size then
            { s with
                storage := fun a =>
                  if s.addr ≤ a ∧ a < s.addr + s.page_pos then
                    s.page_buf (a - s.addr)
                  else s.storage a }
          else s
        { s0 with write_enable := false }
      else s
    { s1 with state := .STATE_IDLE, data_pos := 0, page_pos := 0,
              addr := 0, addr_bytes := 0 }
  else s

/-- `g233_flash_reset`: reset phase hold handler; storage survives. -/
def g233_flash_reset (s : G233FlashState) : G233FlashState :=
  { s with state := .STATE_IDLE, cmd := 0, addr := 0, addr_bytes := 0,
           data_pos := 0, status_reg := 0, write_enable := false,
           page_pos := 0 }

/-- Device state after `g233_flash_realize` with property `size = sz`
(QOM instances are zero-initialized; realize fills in `size`, the JEDEC id
and the `0xFF`-erased storage). -/
def g233_flash_realize (sz : Nat) : G233FlashState :=
  let size := if sz = 0 then 2 * 1024 * 1024 else sz
  { storage := fun _ => 0xFF,
    size := size,
    jedec_id := fun i =>
      if i = 0 then 0xEF
      else if i = 1 then 0x30
      else if i = 2 then
        if size = 2 * 1024 * 1024 then 0x15
        else if size = 4 * 1024 * 1024 then 0x16
        else 0
      else 0,
    state := .STATE_IDLE, cmd := 0, addr := 0, addr_bytes := 0,
    data_pos := 0, status_reg := 0, write_enable := false,
    page_buf := fun _ => 0, page_pos := 0 }

/-- Run a list of byte transfers, keeping only the final state. -/
def runTransfers (s : G233FlashState) : List Nat → G233FlashState
  | [] => s
  | tx :: rest => runTransfers (g233_flash_transfer s tx).1 rest

/-- Run a list of byte transfers, collecting the response bytes. -/
def runTransfersOut (s : G233FlashState) : List Nat → G233FlashState × List Nat
  | [] => (s, [])
  | tx :: rest =>
    let r := g233_flash_transfer s tx
    let r2 := runTransfersOut r.1 rest
    (r2.1, r.2 :: r2.2)

/-- Reachable flash device states: the realized initial state, closed
under byte transfers, chip-select changes and device reset. -/
inductive FlashReachable (sz : Nat) : G233FlashState → Prop where
  | init : FlashReachable sz (g233_flash_realize sz)
  | step_transfer {s : G233FlashState} (tx : Nat) :
      FlashReachable sz s → FlashReachable sz (g233_flash_transfer s tx).1
  | step_cs {s : G233FlashState} (b : Bool) :
      FlashReachable sz s → FlashReachable sz (g233_flash_set_cs s b)
  | step_reset {s : G233FlashState} :
      FlashReachable sz s → FlashReachable sz (g233_flash_reset s)

/-- Inductive strengthening of the C9 invariant: besides the claimed
bounds, while collecting address bytes the active command is one of
READ/PP/SE and at most two address bytes are pending. -/
def flashInv (s : G233FlashState) : Prop :=
  s.page_pos ≤ 256 ∧ s.addr_bytes ≤ 3 ∧
    (s.state = .STATE_READING_CMD →
      (s.cmd = CMD_READ ∨ s.cmd = CMD_PP ∨ s.cmd = CMD_SE) ∧ s.addr_bytes ≤ 2)

/-- SPI controller register offset `SPI_CR1`. -/
def SPI_CR1 : Nat := 0x00

/-- SPI controller register offset `SPI_CR2`. -/
def SPI_CR2 : Nat := 0x04

/-- SPI controller register offset `SPI_SR`. -/
def SPI_SR : Nat := 0x08

/-- SPI controller register offset `SPI_DR`. -/
def SPI_DR : Nat := 0x0C

/-- SPI controller register offset `SPI_CSCTRL`. -/
def SPI_CSCTRL : Nat := 0x10

/-- CR1 enable bit `SPI_CR1_SPE`. -/
def SPI_CR1_SPE : Nat := 0x40

/-- CR2 receive-interrupt-enable bit `SPI_CR2_RXNEIE`. -/
def SPI_CR2_RXNEIE : Nat := 0x40

/-- CR2 error-interrupt-enable bit `SPI_CR2_ERRIE`. -/
def SPI_CR2_ERRIE : Nat := 0x20

/-- CR2 transmit-interrupt-enable bit `SPI_CR2_TXEIE`. -/
def SPI_CR2_TXEIE : Nat := 0x80

/-- SR transmit-empty bit `SPI_SR_TXE`. -/
def SPI_SR_TXE : Nat := 0x02

/-- SR receive-not-empty bit `SPI_SR_RXNE`. -/
def SPI_SR_RXNE : Nat := 0x01

/-- SR underrun bit `SPI_SR_UDR`. -/
def SPI_SR_UDR : Nat := 0x04

/-- SR overrun bit `SPI_SR_OVR`. -/
def SPI_SR_OVR : Nat := 0x08

/-- SR busy bit `SPI_SR_BSY`. -/
def SPI_SR_BSY : Nat := 0x80

/-- State of the G233 SPI controller (`struct G233SPIState`) together with
the single peripheral `dev : D` sitting on its SSI bus (`ssi_transfer`
delivers the byte to that peripheral).  `irq` is the level last driven on
the interrupt line; `cs_attached i` records whether a chip-select line is
wired to slot `i` and `cs_level i` the level last driven on it. -/
structure SpiSys (D : Type) where
  dev : D
  cr1 : Nat
  cr2 : Nat
  sr : Nat
  dr_tx : Nat
  dr_rx : Nat
  csctrl : Nat
  prev_csctrl : Nat
  rx_fifo_has_data : Bool
  interrupt_count : Nat
  irq : Bool
  cs_attached : Fin 4 → Bool
  cs_level : Fin 4 → Bool

/-- The `irq_state` computed inside `g233_spi_update_irq` from `cr2` and
`sr`: (RXNEIE ∧ RXNE) ∨ (TXEIE ∧ TXE) ∨ (ERRIE ∧ (UDR ∨ OVR)). -/
def g233_spi_irq_state (cr2 sr : Nat) : Bool :=
  (decide (cr2 &&& SPI_CR2_RXNEIE ≠ 0) && decide (sr &&& SPI_SR_RXNE ≠ 0)) ||
  (decide (cr2 &&& SPI_CR2_TXEIE ≠ 0) && decide (sr &&& SPI_SR_TXE ≠ 0)) ||
  (decide (cr2 &&& SPI_CR2_ERRIE ≠ 0) &&
    decide (sr &&& (SPI_SR_UDR ||| SPI_SR_OVR) ≠ 0))

/-- `g233_spi_update_irq`: recompute and drive the interrupt line
(incrementing the diagnostic `interrupt_count` when the line is high). -/
def g233_spi_update_irq {D : Type} (s : SpiSys D) : SpiSys D :=
  let st := g233_spi_irq_state s.cr2 s.sr
  { s with
      interrupt_count :=
        if st then s.interrupt_count + 1 else s.interrupt_count,
      irq := st }

/-- `g233_spi_read`: MMIO read at offset `addr`; returns the new system
state and the value read. -/
def g233_spi_read {D : Type} (s : SpiSys D) (addr : Nat) : SpiSys D × Nat :=
  if addr = SPI_CR1 then (s, s.cr1)
  else if addr = SPI_CR2 then (s, s.cr2)
  else if addr = SPI_SR then (s, s.sr)
  else if addr = SPI_DR then
    (g233_spi_update_irq
      { s with sr := s.sr &&& 0xFFFFFFFE, rx_fifo_has_data := false },
     s.dr_rx)
  else if addr = SPI_CSCTRL then (s, s.csctrl)
  else (s, 0)

/-- `g233_spi_write`: MMIO write of `value` at offset `addr`.  The DR path
runs a transfer through the attached peripheral via `tr` (the role played
by `ssi_transfer` in the C code). -/
def g233_spi_write {D : Type} (tr : D → Nat → D × Nat) (s : SpiSys D)
    (addr : Nat) (value : Nat) : SpiSys D :=
  if addr = SPI_CR1 then { s with cr1 := value % 4294967296 }
  else if addr = SPI_CR2 then
    g233_spi_update_irq { s with cr2 := value % 4294967296 }
  else if addr = SPI_SR then
    g233_spi_update_irq
      { s with
          sr := s.sr &&&
            (0xFFFFFFFF ^^^ (value &&& (SPI_SR_UDR ||| SPI_SR_OVR))) }
  else if addr = SPI_DR then
    if s.cr1 &&& SPI_CR1_SPE ≠ 0 then
      let overrun := s.rx_fifo_has_data && decide (s.sr &&& SPI_SR_RXNE ≠ 0)
      let tx := value &&& 0xFF
      let sr1 := (s.sr &&& 0xFFFFFFFD) ||| SPI_SR_BSY
      let r := tr s.dev tx
      let sr2 := if overrun then sr1 ||| SPI_SR_OVR else sr1
      let sr3 := (sr2 ||| (SPI_SR_TXE ||| SPI_SR_RXNE)) &&& 0xFFFFFF7F
      g233_spi_update_irq
        { s with dev := r.1, dr_tx := tx, dr_rx := r.2 &&& 0xFF, sr := sr3,
                 rx_fifo_has_data := true }
    else s
  else if addr = SPI_CSCTRL then
    let s1 := { s with prev_csctrl := s.csctrl, csctrl := value % 4294967296 }
    let s2 :=
      if s1.cs_attached 0 then
        { s1 with
            cs_level := fun i =>
              if i = 0 then !(decide (value &&& 0x11 = 0x11))
              else s1.cs_level i }
      else s1
    if s2.cs_attached 1 then
      { s2 with
          cs_level := fun i =>
            if i = 1 then !(decide (value &&& 0x22 = 0x22))
            else s2.cs_level i }
    else s2
  else s

/-- `g233_spi_reset`: reset phase hold handler; drives every attached
chip-select line to the deasserted (high) level. -/
def g233_spi_reset {D : Type} (s : SpiSys D) : SpiSys D :=
  { s with cr1 := 0, cr2 := 0, sr := 0x00000002, dr_tx := 0, dr_rx := 0,
           csctrl := 0, prev_csctrl := 0, rx_fifo_has_data := false,
           interrupt_count := 0,
           cs_level := fun i => if s.cs_attached i then true else s.cs_level i }

/-- A concrete controller/flash system used by witnesses: enable bit set in
CR1, receive-interrupt-enable (only) set in CR2, all four select lines
attached and deasserted, flash freshly realized at the default size. -/
def spiSys1 : SpiSys G233FlashState :=
  { dev := g233_flash_realize 0, cr1 := 0x40, cr2 := 0x40, sr := 0x02,
    dr_tx := 0, dr_rx := 0, csctrl := 0, prev_csctrl := 0,
    rx_fifo_has_data := false, interrupt_count := 0, irq := false,
    cs_attached := fun _ => true, cs_level := fun _ => true }

/-- A concrete flash state used by the C8 counterexample: a page-program
transaction whose buffered byte would land just past the end of storage. -/
def flashC8 : G233FlashState :=
  { storage := fun _ => 0xFF, size := 2 * 1024 * 1024,
    jedec_id := fun _ => 0, state := .STATE_WRITING_DATA, cmd := 0x02,
    addr := 2 * 1024 * 1024, addr_bytes := 3, data_pos := 0,
    status_reg := 0, write_enable := true, page_buf := fun _ => 0xAA,
    page_pos := 1 }

end G233

open G233

/-- C1: end-to-end: on a freshly realized 2 MiB device (storage erased,
hence erased at 0x10..0x14), WREN; PP; address 0x000010; five 0xAB data
bytes; CS deassert; READ; address 0x000010; five transfers then each
return 0xAB. -/
theorem C1_end_to_end :
    (runTransfersOut
      (runTransfers
        (g233_flash_set_cs
          (runTransfers (g233_flash_realize (2 * 1024 * 1024))
            [0x06, 0x02, 0x00, 0x00, 0x10, 0xAB, 0xAB, 0xAB, 0xAB, 0xAB])
          false)
        [0x03, 0x00, 0x00, 0x10])
      [0, 0, 0, 0, 0]).2 = [0xAB, 0xAB, 0xAB, 0xAB, 0xAB] := by
  decide

/-- C3: with the command state Idle and the write-enable latch clear, a
transfer of PAGE_PROGRAM (0x02) or SECTOR_ERASE (0x20) leaves storage and
the command state unchanged and returns 0. -/
theorem C3_write_enable_gating (s : G233FlashState)
    (h1 : s.state = .STATE_IDLE) (h2 : s.write_enable = false) :
    ((g233_flash_transfer s 0x02).1.storage = s.storage ∧
     (g233_flash_transfer s 0x02).1.state = .STATE_IDLE ∧
     (g233_flash_transfer s 0x02).2 = 0) ∧
    ((g233_flash_transfer s 0x20).1.storage = s.storage ∧
     (g233_flash_transfer s 0x20).1.state = .STATE_IDLE ∧
     (g233_flash_transfer s 0x20).2 = 0) := by
  simp [g233_flash_transfer, g233_flash_transfer_step, h1, h2,
    CMD_JEDEC_ID, CMD_RDSR, CMD_WREN, CMD_WRDI, CMD_READ, CMD_PP, CMD_SE]

/-- Witness for C3 at the freshly realized device. -/
theorem C3_witness :
    (g233_flash_realize 0).state = .STATE_IDLE ∧
    (g233_flash_realize 0).write_enable = false ∧
    (((g233_flash_transfer (g233_flash_realize 0) 0x02).1.storage =
        (g233_flash_realize 0).storage ∧
      (g233_flash_transfer (g233_flash_realize 0) 0x02).1.state =
        .STATE_IDLE ∧
      (g233_flash_transfer (g233_flash_realize 0) 0x02).2 = 0) ∧
     ((g233_flash_transfer (g233_flash_realize 0) 0x20).1.storage =
        (g233_flash_realize 0).storage ∧
      (g233_flash_transfer (g233_flash_realize 0) 0x20).1.state =
        .STATE_IDLE ∧
      (g233_flash_transfer (g233_flash_realize 0) 0x20).2 = 0)) :=
  ⟨rfl, rfl, C3_write_enable_gating (g233_flash_realize 0) rfl rfl⟩

/-- C4: completing the third address byte of a SECTOR_ERASE transaction
(24-bit accumulated address `(s.addr <<< 8) ||| tx`) erases exactly the
4 KiB sector at the aligned base when that base is below `size`, leaves
storage entirely unchanged otherwise, and in both cases clears the
write-enable latch and returns the state machine to Idle. -/
theorem C4_sector_erase (s : G233FlashState) (tx : Nat)
    (h1 : s.state = .STATE_READING_CMD) (h2 : s.cmd = 0x20)
    (h3 : s.addr_bytes = 2) (h4 : s.addr < 65536) (h5 : tx < 256) :
    (g233_flash_transfer s tx).1.state = .STATE_IDLE ∧
    (g233_flash_transfer s tx).1.write_enable = false ∧
    ((((s.addr <<< 8) ||| tx) &&& 0xFFFFF000) < s.size →
      (g233_flash_transfer s tx).1.storage = fun a =>
        if (((s.addr <<< 8) ||| tx) &&& 0xFFFFF000) ≤ a ∧
            a < (((s.addr <<< 8) ||| tx) &&& 0xFFFFF000) + 4096 then 0xFF
        else s.storage a) ∧
    (s.size ≤ (((s.addr <<< 8) ||| tx) &&& 0xFFFFF000) →
      (g233_flash_transfer s tx).1.storage = s.storage) := by
  have hor : (s.addr <<< 8) ||| tx < 2 ^ 32 :=
    Nat.or_lt_two_pow (by rw [Nat.shiftLeft_eq]; norm_num; omega)
      (by norm_num; omega)
  have hm : ((s.addr <<< 8) ||| tx) % 4294967296 = (s.addr <<< 8) ||| tx :=
    Nat.mod_eq_of_lt (by simpa using hor)
  simp only [g233_flash_transfer, g233_flash_transfer_step, h1, h2, h3, hm,
    CMD_READ, CMD_PP, CMD_SE]
  norm_num
  split_ifs with hsec
  · simp [Nat.not_lt.mpr, hsec]
  · simp [hsec]

/-- Witness for C4: erase at accumulated address 0x001034 on a fresh
device after WREN, SE and two address bytes; sector base 0x1000 is in
bounds, so the aligned 4 KiB sector is filled with 0xFF. -/
theorem C4_witness :
    (runTransfers (g233_flash_realize 0) [0x06, 0x20, 0x00, 0x10]).state =
      .STATE_READING_CMD ∧
    (runTransfers (g233_flash_realize 0) [0x06, 0x20, 0x00, 0x10]).cmd =
      0x20 ∧
    (runTransfers (g233_flash_realize 0) [0x06, 0x20, 0x00, 0x10]).addr_bytes
      = 2 ∧
    (runTransfers (g233_flash_realize 0) [0x06, 0x20, 0x00, 0x10]).addr <
      65536 ∧
    (0x34 : Nat) < 256 ∧
    (g233_flash_transfer
        (runTransfers (g233_flash_realize 0) [0x06, 0x20, 0x00, 0x10])
        0x34).1.state = .STATE_IDLE ∧
    (g233_flash_transfer
        (runTransfers (g233_flash_realize 0) [0x06, 0x20, 0x00, 0x10])
        0x34).1.write_enable = false ∧
    (g233_flash_transfer
        (runTransfers (g233_flash_realize 0) [0x06, 0x20, 0x00, 0x10])
        0x34).1.storage = fun a =>
      if ((((runTransfers (g233_flash_realize 0)
              [0x06, 0x20, 0x00, 0x10]).addr <<< 8) ||| 0x34) &&&
            0xFFFFF000) ≤ a ∧
          a < ((((runTransfers (g233_flash_realize 0)
              [0x06, 0x20, 0x00, 0x10]).addr <<< 8) ||| 0x34) &&&
            0xFFFFF000) + 4096 then 0xFF
      else (runTransfers (g233_flash_realize 0)
          [0x06, 0x20, 0x00, 0x10]).storage a :=
  ⟨by decide, by decide, by decide, by decide, by decide,
   (C4_sector_erase _ 0x34 (by decide) (by decide) (by decide) (by decide)
      (by decide)).1,
   (C4_sector_erase _ 0x34 (by decide) (by decide) (by decide) (by decide)
      (by decide)).2.1,
   (C4_sector_erase _ 0x34 (by decide) (by decide) (by decide) (by decide)
      (by decide)).2.2.1 (by decide)⟩

/-- A transfer received in the WritingData state only touches the page
buffer: storage is untouched and the state stays WritingData. -/
theorem transfer_writingData_frame (s : G233FlashState) (tx : Nat)
    (h : s.state = .STATE_WRITING_DATA) :
    (g233_flash_transfer s tx).1.storage = s.storage ∧
    (g233_flash_transfer s tx).1.state = .STATE_WRITING_DATA := by
  simp only [g233_flash_transfer, g233_flash_transfer_step, h]
  split <;> simp [h]

/-- Running any prefix of a data-byte list from the WritingData state
leaves storage untouched and the state in WritingData. -/
theorem runTransfers_writingData_frame (data : List Nat) :
    ∀ (s : G233FlashState) (k : Nat), s.state = .STATE_WRITING_DATA →
      (runTransfers s (List.take k data)).storage = s.storage ∧
      (runTransfers s (List.take k data)).state = .STATE_WRITING_DATA := by
  induction data with
  | nil => intro s k h; simp [runTransfers, h]
  | cons tx rest ih =>
    intro s k h
    cases k with
    | zero => simp [runTransfers, h]
    | succ j =>
      simp only [List.take_succ_cons, runTransfers]
      obtain ⟨h1, h2⟩ := transfer_writingData_frame s tx h
      obtain ⟨h3, h4⟩ := ih _ j h2
      exact ⟨h3.trans h1, h4⟩

/-- C2: during a page-program transaction (WREN, PAGE_PROGRAM, three
address bytes, any number of data bytes) no transfer touches storage (any
prefix of the transaction leaves storage as it was); deasserting the
select line is the only storage-changing select event: asserting it never
changes storage, and deasserting it changes nothing unless the state is
WritingData with a non-empty page buffer. -/
theorem C2_program_atomicity (s s2 : G233FlashState)
    (a1 a2 a3 : Nat) (data : List Nat) (k : Nat)
    (h : s.state = .STATE_IDLE) :
    (runTransfers s
        (List.take k ([0x06, 0x02, a1, a2, a3] ++ data))).storage =
      s.storage ∧
    (g233_flash_set_cs s2 true).storage = s2.storage ∧
    (¬(s2.state = .STATE_WRITING_DATA ∧ 0 < s2.page_pos) →
      (g233_flash_set_cs s2 false).storage = s2.storage) := by
  refine ⟨?_, rfl, ?_⟩
  · rcases k with _ | _ | _ | _ | _ | j
    · simp [runTransfers]
    · simp [runTransfers, g233_flash_transfer, g233_flash_transfer_step, h,
        CMD_JEDEC_ID, CMD_RDSR, CMD_WREN, CMD_WRDI, CMD_READ, CMD_PP, CMD_SE,
        List.take_succ_cons]
    · simp [runTransfers, g233_flash_transfer, g233_flash_transfer_step, h,
        CMD_JEDEC_ID, CMD_RDSR, CMD_WREN, CMD_WRDI, CMD_READ, CMD_PP, CMD_SE,
        List.take_succ_cons]
    · simp [runTransfers, g233_flash_transfer, g233_flash_transfer_step, h,
        CMD_JEDEC_ID, CMD_RDSR, CMD_WREN, CMD_WRDI, CMD_READ, CMD_PP, CMD_SE,
        List.take_succ_cons]
    · simp [runTransfers, g233_flash_transfer, g233_flash_transfer_step, h,
        CMD_JEDEC_ID, CMD_RDSR, CMD_WREN, CMD_WRDI, CMD_READ, CMD_PP, CMD_SE,
        List.take_succ_cons]
    · simp only [List.cons_append, List.nil_append, List.take_succ_cons,
        runTransfers]
      simp only [g233_flash_transfer, g233_flash_transfer_step, h,
        CMD_JEDEC_ID, CMD_RDSR, CMD_WREN, CMD_WRDI, CMD_READ, CMD_PP, CMD_SE]
      norm_num
      exact (runTransfers_writingData_frame data _ j rfl).1
  · intro h2
    simp [g233_flash_set_cs, h2]

/-- Witness for C2 on a fresh device and a full seven-byte program
transaction; the select-assert part is exercised mid-buffer (WritingData
with one byte buffered), the deassert part from the Idle state. -/
theorem C2_witness :
    (g233_flash_realize 0).state = .STATE_IDLE ∧
    ((runTransfers (g233_flash_realize 0)
        (List.take 7 ([0x06, 0x02, 0, 0, 0x10] ++ [0xAA, 0xBB]))).storage =
      (g233_flash_realize 0).storage ∧
     (g233_flash_set_cs
        (runTransfers (g233_flash_realize 0)
          [0x06, 0x02, 0, 0, 0x10, 0xAB]) true).storage =
      (runTransfers (g233_flash_realize 0)
        [0x06, 0x02, 0, 0, 0x10, 0xAB]).storage ∧
     ¬((g233_flash_realize 0).state = .STATE_WRITING_DATA ∧
        0 < (g233_flash_realize 0).page_pos) ∧
     (g233_flash_set_cs (g233_flash_realize 0) false).storage =
      (g233_flash_realize 0).storage) :=
  ⟨rfl,
   (C2_program_atomicity (g233_flash_realize 0) (g233_flash_realize 0)
     0 0 0x10 [0xAA, 0xBB] 7 rfl).1,
   (C2_program_atomicity (g233_flash_realize 0)
     (runTransfers (g233_flash_realize 0) [0x06, 0x02, 0, 0, 0x10, 0xAB])
     0 0 0x10 [0xAA, 0xBB] 7 rfl).2.1,
   by decide,
   (C2_program_atomicity (g233_flash_realize 0) (g233_flash_realize 0)
     0 0 0x10 [0xAA, 0xBB] 7 rfl).2.2 (by decide)⟩

/-- C8 counterexample: at `flashC8` (WritingData, one buffered byte whose
destination `addr + page_pos` exceeds `size`, write-enable latch set),
deasserting select *does* clear the write-enable latch, contradicting the
claim that the latch is cleared only when the in-bounds copy happens. -/
theorem C8_counterexample :
    flashC8.state = .STATE_WRITING_DATA ∧ 0 < flashC8.page_pos ∧
    flashC8.size < flashC8.addr + flashC8.page_pos ∧
    flashC8.write_enable = true ∧
    (g233_flash_set_cs flashC8 false).write_enable = false := by
  refine ⟨rfl, by decide, by decide, rfl, ?_⟩
  decide

/-- C8 amended: when select is deasserted in WritingData with a non-empty
out-of-bounds buffer, the copy to storage does not happen but the
write-enable latch is still cleared (the clear is unconditional on the
bounds check); and on every deassertion the command state returns to Idle
and `data_pos`, `page_pos`, `addr`, `addr_bytes` are zeroed. -/
theorem C8_deassert_out_of_bounds (s s2 : G233FlashState)
    (h1 : s.state = .STATE_WRITING_DATA) (h2 : 0 < s.page_pos)
    (h3 : s.size < s.addr + s.page_pos)
    (h4 : s.addr + s.page_pos < 4294967296) :
    (g233_flash_set_cs s false).storage = s.storage ∧
    (g233_flash_set_cs s false).write_enable = false ∧
    (g233_flash_set_cs s2 false).state = .STATE_IDLE ∧
    (g233_flash_set_cs s2 false).data_pos = 0 ∧
    (g233_flash_set_cs s2 false).page_pos = 0 ∧
    (g233_flash_set_cs s2 false).addr = 0 ∧
    (g233_flash_set_cs s2 false).addr_bytes = 0 := by
  have hmod : (s.addr + s.page_pos) % 4294967296 = s.addr + s.page_pos :=
    Nat.mod_eq_of_lt h4
  have hnle : ¬((s.addr + s.page_pos) % 4294967296 ≤ s.size) := by
    rw [hmod]; omega
  refine ⟨?_, ?_, ?_, ?_, ?_, ?_, ?_⟩ <;>
    simp [g233_flash_set_cs, h1, h2, hnle]

/-- Witness for C8 at `flashC8` (and the fresh device for the
unconditional reset-on-deassert part). -/
theorem C8_witness :
    flashC8.state = .STATE_WRITING_DATA ∧ 0 < flashC8.page_pos ∧
    flashC8.size < flashC8.addr + flashC8.page_pos ∧
    flashC8.addr + flashC8.page_pos < 4294967296 ∧
    ((g233_flash_set_cs flashC8 false).storage = flashC8.storage ∧
     (g233_flash_set_cs flashC8 false).write_enable = false ∧
     (g233_flash_set_cs (g233_flash_realize 0) false).state =
       .STATE_IDLE ∧
     (g233_flash_set_cs (g233_flash_realize 0) false).data_pos = 0 ∧
     (g233_flash_set_cs (g233_flash_realize 0) false).page_pos = 0 ∧
     (g233_flash_set_cs (g233_flash_realize 0) false).addr = 0 ∧
     (g233_flash_set_cs (g233_flash_realize 0) false).addr_bytes = 0) :=
  ⟨rfl, by decide, by decide, by decide,
   C8_deassert_out_of_bounds flashC8 (g233_flash_realize 0) rfl (by decide)
     (by decide) (by decide)⟩

/-- The strengthened invariant holds in the realized initial state. -/
theorem flashInv_realize (sz : Nat) : flashInv (g233_flash_realize sz) := by
  refine ⟨by simp [g233_flash_realize], by simp [g233_flash_realize], ?_⟩
  intro hcon
  simp [g233_flash_realize] at hcon

/-- The strengthened invariant is preserved by `g233_flash_transfer`. -/
theorem flashInv_transfer (s : G233FlashState) (tx : Nat)
    (h : flashInv s) : flashInv (g233_flash_transfer s tx).1 := by
  obtain ⟨hp, ha, hrc⟩ := h
  cases hs : s.state
  case STATE_IDLE =>
    simp only [g233_flash_transfer, g233_flash_transfer_step, hs]
    split_ifs <;> simp_all [flashInv, CMD_READ, CMD_PP, CMD_SE]
  case STATE_READING_CMD =>
    obtain ⟨hc, hab⟩ := hrc hs
    simp only [g233_flash_transfer, g233_flash_transfer_step, hs]
    split_ifs <;> simp_all [flashInv, CMD_READ, CMD_PP, CMD_SE]
    all_goals omega
  case STATE_READING_ID =>
    simp only [g233_flash_transfer, g233_flash_transfer_step, hs]
    split_ifs <;> simp_all [flashInv]
  case STATE_READING_SR =>
    simp_all [g233_flash_transfer, g233_flash_transfer_step, hs, flashInv]
  case STATE_READING_DATA =>
    simp_all [g233_flash_transfer, g233_flash_transfer_step, hs, flashInv]
  case STATE_WRITING_SR =>
    simp_all [g233_flash_transfer, g233_flash_transfer_step, hs, flashInv]
  case STATE_WRITING_DATA =>
    simp only [g233_flash_transfer, g233_flash_transfer_step, hs]
    split_ifs <;> simp_all [flashInv]
    all_goals omega
  case STATE_ERASING =>
    simp_all [g233_flash_transfer, g233_flash_transfer_step, hs, flashInv]

/-- The strengthened invariant is preserved by `g233_flash_set_cs`. -/
theorem flashInv_set_cs (s : G233FlashState) (b : Bool)
    (h : flashInv s) : flashInv (g233_flash_set_cs s b) := by
  cases b
  · refine ⟨?_, ?_, ?_⟩ <;> simp [g233_flash_set_cs]
  · simpa [g233_flash_set_cs] using h

/-- The strengthened invariant is preserved by `g233_flash_reset`. -/
theorem flashInv_reset (s : G233FlashState) :
    flashInv (g233_flash_reset s) := by
  refine ⟨?_, ?_, ?_⟩ <;> simp [g233_flash_reset]

/-- Every reachable flash state satisfies the strengthened invariant. -/
theorem flashInv_reachable (sz : Nat) (s : G233FlashState)
    (h : FlashReachable sz s) : flashInv s := by
  induction h with
  | init => exact flashInv_realize sz
  | step_transfer tx _ ih => exact flashInv_transfer _ tx ih
  | step_cs b _ ih => exact flashInv_set_cs _ b ih
  | step_reset _ _ => exact flashInv_reset _

/-- C9: `page_pos ≤ 256 ∧ addr_bytes ≤ 3` holds at every reachable device
state — in particular at the initial state — and is preserved there by
every operation: any byte transfer, any chip-select change, and reset. -/
theorem C9_bounds_invariant (sz : Nat) (s : G233FlashState)
    (tx : Nat) (b : Bool) (h : FlashReachable sz s) :
    (s.page_pos ≤ 256 ∧ s.addr_bytes ≤ 3) ∧
    ((g233_flash_transfer s tx).1.page_pos ≤ 256 ∧
      (g233_flash_transfer s tx).1.addr_bytes ≤ 3) ∧
    ((g233_flash_set_cs s b).page_pos ≤ 256 ∧
      (g233_flash_set_cs s b).addr_bytes ≤ 3) ∧
    ((g233_flash_reset s).page_pos ≤ 256 ∧
      (g233_flash_reset s).addr_bytes ≤ 3) := by
  have hinv := flashInv_reachable sz s h
  have h1 := flashInv_transfer s tx hinv
  have h2 := flashInv_set_cs s b hinv
  have h3 := flashInv_reset s
  exact ⟨⟨hinv.1, hinv.2.1⟩, ⟨h1.1, h1.2.1⟩, ⟨h2.1, h2.2.1⟩, ⟨h3.1, h3.2.1⟩⟩

/-- Witness for C9 at the realized initial state of the default-size
device (reachable by construction), stepping with byte 0x9F, select
assert, and reset. -/
theorem C9_witness :
    ((g233_flash_realize 0).page_pos ≤ 256 ∧
      (g233_flash_realize 0).addr_bytes ≤ 3) ∧
    ((g233_flash_transfer (g233_flash_realize 0) 0x9F).1.page_pos ≤ 256 ∧
      (g233_flash_transfer (g233_flash_realize 0) 0x9F).1.addr_bytes ≤ 3) ∧
    ((g233_flash_set_cs (g233_flash_realize 0) true).page_pos ≤ 256 ∧
      (g233_flash_set_cs (g233_flash_realize 0) true).addr_bytes ≤ 3) ∧
    ((g233_flash_reset (g233_flash_realize 0)).page_pos ≤ 256 ∧
      (g233_flash_reset (g233_flash_realize 0)).addr_bytes ≤ 3) :=
  C9_bounds_invariant 0 (g233_flash_realize 0) 0x9F true
    FlashReachable.init

/-- After an enabled DR write, the status register has RXNE set: the
post-transfer status is `(x ||| (TXE ||| RXNE)) &&& ~BSY` and bit 0
survives the busy-clear mask. -/
theorem sr_after_transfer_rxne (x : Nat) :
    ((x ||| (SPI_SR_TXE ||| SPI_SR_RXNE)) &&& 0xFFFFFF7F) &&& SPI_SR_RXNE ≠
      0 := by
  intro hcon
  have h0 : (((x ||| (SPI_SR_TXE ||| SPI_SR_RXNE)) &&& 0xFFFFFF7F) &&&
      SPI_SR_RXNE).testBit 0 = false := by
    rw [hcon]; exact Nat.zero_testBit 0
  have t1 : Nat.testBit 1 0 = true := by decide
  have t2 : Nat.testBit 2 0 = false := by decide
  have t3 : Nat.testBit 4294967167 0 = true := by decide
  simp [Nat.testBit_and, Nat.testBit_or, SPI_SR_TXE, SPI_SR_RXNE,
    t1, t2, t3] at h0

/-- The overrun bit, once OR-ed into the status word, survives the
subsequent TXE/RXNE set and busy-clear mask. -/
theorem sr_after_transfer_ovr (x y : Nat) :
    ((((x ||| SPI_SR_OVR) ||| y) &&& 0xFFFFFF7F) &&& SPI_SR_OVR) ≠ 0 := by
  intro hcon
  have h0 : (((((x ||| SPI_SR_OVR) ||| y)) &&& 0xFFFFFF7F) &&&
      SPI_SR_OVR).testBit 3 = false := by
    rw [hcon]; exact Nat.zero_testBit 3
  have t1 : Nat.testBit 8 3 = true := by decide
  have t2 : Nat.testBit 4294967167 3 = true := by decide
  simp [Nat.testBit_and, Nat.testBit_or, SPI_SR_OVR, t1, t2] at h0

/-- Clearing RXNE with the `~RXNE` mask indeed leaves bit 0 clear. -/
theorem sr_clear_rxne (x : Nat) :
    (x &&& 0xFFFFFFFE) &&& SPI_SR_RXNE = 0 := by
  have e : (4294967294 &&& (1 : Nat)) = 0 := by decide
  simp only [SPI_SR_RXNE]
  rw [Nat.and_assoc]
  norm_num [e]

/-- Field-level description of one enabled DR write. -/
theorem writeDR_fields {D : Type} (tr : D → Nat → D × Nat) (s : SpiSys D)
    (v : Nat) (h : s.cr1 &&& SPI_CR1_SPE ≠ 0) :
    (g233_spi_write tr s SPI_DR v).cr1 = s.cr1 ∧
    (g233_spi_write tr s SPI_DR v).cr2 = s.cr2 ∧
    (g233_spi_write tr s SPI_DR v).rx_fifo_has_data = true ∧
    (g233_spi_write tr s SPI_DR v).dr_rx = (tr s.dev (v &&& 0xFF)).2 &&& 0xFF ∧
    (g233_spi_write tr s SPI_DR v).dev = (tr s.dev (v &&& 0xFF)).1 ∧
    (g233_spi_write tr s SPI_DR v).sr =
      ((if s.rx_fifo_has_data && decide (s.sr &&& SPI_SR_RXNE ≠ 0)
        then ((s.sr &&& 0xFFFFFFFD) ||| SPI_SR_BSY) ||| SPI_SR_OVR
        else (s.sr &&& 0xFFFFFFFD) ||| SPI_SR_BSY) |||
        (SPI_SR_TXE ||| SPI_SR_RXNE)) &&& 0xFFFFFF7F ∧
    (g233_spi_write tr s SPI_DR v).irq =
      g233_spi_irq_state s.cr2
        (((if s.rx_fifo_has_data && decide (s.sr &&& SPI_SR_RXNE ≠ 0)
          then ((s.sr &&& 0xFFFFFFFD) ||| SPI_SR_BSY) ||| SPI_SR_OVR
          else (s.sr &&& 0xFFFFFFFD) ||| SPI_SR_BSY) |||
          (SPI_SR_TXE ||| SPI_SR_RXNE)) &&& 0xFFFFFF7F) := by
  refine ⟨?_, ?_, ?_, ?_, ?_, ?_, ?_⟩ <;>
    simp [g233_spi_write, g233_spi_update_irq, SPI_CR1, SPI_CR2, SPI_SR,
      SPI_DR, SPI_CSCTRL, h]

/-- Field-level description of one DR read. -/
theorem readDR_fields {D : Type} (s : SpiSys D) :
    (g233_spi_read s SPI_DR).2 = s.dr_rx ∧
    (g233_spi_read s SPI_DR).1.cr1 = s.cr1 ∧
    (g233_spi_read s SPI_DR).1.cr2 = s.cr2 ∧
    (g233_spi_read s SPI_DR).1.csctrl = s.csctrl ∧
    (g233_spi_read s SPI_DR).1.prev_csctrl = s.prev_csctrl ∧
    (g233_spi_read s SPI_DR).1.dr_tx = s.dr_tx ∧
    (g233_spi_read s SPI_DR).1.dr_rx = s.dr_rx ∧
    (g233_spi_read s SPI_DR).1.dev = s.dev ∧
    (g233_spi_read s SPI_DR).1.cs_attached = s.cs_attached ∧
    (g233_spi_read s SPI_DR).1.cs_level = s.cs_level ∧
    (g233_spi_read s SPI_DR).1.sr = s.sr &&& 0xFFFFFFFE ∧
    (g233_spi_read s SPI_DR).1.rx_fifo_has_data = false ∧
    (g233_spi_read s SPI_DR).1.irq =
      g233_spi_irq_state s.cr2 (s.sr &&& 0xFFFFFFFE) := by
  refine ⟨?_, ?_, ?_, ?_, ?_, ?_, ?_, ?_, ?_, ?_, ?_, ?_, ?_⟩ <;>
    simp [g233_spi_read, g233_spi_update_irq, SPI_CR1, SPI_CR2, SPI_SR,
      SPI_DR, SPI_CSCTRL]

/-- C5: with the CR1 enable bit set, two successive DR writes without an
intervening DR read leave the overrun status bit set after the second
write, and the receive latch then holds the second transfer's response
byte (the overrun condition having been computed from the receive state as
it was before the second transfer, which in the embedding is definitional:
`overrun` is bound before `tr` is applied). -/
theorem C5_overrun_ordering {D : Type} (tr : D → Nat → D × Nat)
    (s : SpiSys D) (v1 v2 : Nat) (h : s.cr1 &&& SPI_CR1_SPE ≠ 0) :
    ((g233_spi_write tr (g233_spi_write tr s SPI_DR v1) SPI_DR v2).sr &&&
        SPI_SR_OVR ≠ 0) ∧
    ((g233_spi_write tr (g233_spi_write tr s SPI_DR v1) SPI_DR v2).dr_rx =
      (tr (g233_spi_write tr s SPI_DR v1).dev (v2 &&& 0xFF)).2 &&& 0xFF) := by
  obtain ⟨e1cr1, _, e1rx, _, _, e1sr, _⟩ := writeDR_fields tr s v1 h
  have h2 : (g233_spi_write tr s SPI_DR v1).cr1 &&& SPI_CR1_SPE ≠ 0 := by
    rw [e1cr1]; exact h
  obtain ⟨_, _, _, e2drrx, _, e2sr, _⟩ :=
    writeDR_fields tr (g233_spi_write tr s SPI_DR v1) v2 h2
  constructor
  · rw [e2sr, e1rx, e1sr]
    simp only [Bool.true_and]
    rw [if_pos (by simp [sr_after_transfer_rxne])]
    exact sr_after_transfer_ovr _ _
  · exact e2drrx

/-- Witness for C5: two DR writes (JEDEC-ID opcode, then a dummy byte)
against the concrete enabled controller with a fresh flash attached. -/
theorem C5_witness :
    (spiSys1.cr1 &&& SPI_CR1_SPE ≠ 0) ∧
    ((g233_spi_write g233_flash_transfer
        (g233_spi_write g233_flash_transfer spiSys1 SPI_DR 0x9F)
        SPI_DR 0).sr &&& SPI_SR_OVR ≠ 0) ∧
    ((g233_spi_write g233_flash_transfer
        (g233_spi_write g233_flash_transfer spiSys1 SPI_DR 0x9F)
        SPI_DR 0).dr_rx =
      (g233_flash_transfer
        (g233_spi_write g233_flash_transfer spiSys1 SPI_DR 0x9F).dev
        (0 &&& 0xFF)).2 &&& 0xFF) :=
  ⟨by decide,
   (C5_overrun_ordering g233_flash_transfer spiSys1 0x9F 0 (by decide)).1,
   (C5_overrun_ordering g233_flash_transfer spiSys1 0x9F 0 (by decide)).2⟩

/-- C6: every register operation that recomputes the interrupt line (CR2
write, SR write, enabled DR write, DR read) leaves the driven level equal
to (RXNEIE ∧ RXNE) ∨ (TXEIE ∧ TXE) ∨ (ERRIE ∧ (UDR ∨ OVR)) over the
resulting registers; and with only receive-interrupt-enable set in CR2 and
the CR1 enable bit set, the level is true right after a DR write and false
after the subsequent DR read. -/
theorem C6_interrupt_aggregation {D : Type} (tr : D → Nat → D × Nat)
    (s : SpiSys D) (v : Nat) :
    ((g233_spi_write tr s SPI_CR2 v).irq =
      g233_spi_irq_state (g233_spi_write tr s SPI_CR2 v).cr2
        (g233_spi_write tr s SPI_CR2 v).sr) ∧
    ((g233_spi_write tr s SPI_SR v).irq =
      g233_spi_irq_state (g233_spi_write tr s SPI_SR v).cr2
        (g233_spi_write tr s SPI_SR v).sr) ∧
    (s.cr1 &&& SPI_CR1_SPE ≠ 0 →
      (g233_spi_write tr s SPI_DR v).irq =
        g233_spi_irq_state (g233_spi_write tr s SPI_DR v).cr2
          (g233_spi_write tr s SPI_DR v).sr) ∧
    ((g233_spi_read s SPI_DR).1.irq =
      g233_spi_irq_state (g233_spi_read s SPI_DR).1.cr2
        (g233_spi_read s SPI_DR).1.sr) ∧
    (s.cr2 &&& SPI_CR2_RXNEIE ≠ 0 → s.cr2 &&& SPI_CR2_TXEIE = 0 →
      s.cr2 &&& SPI_CR2_ERRIE = 0 → s.cr1 &&& SPI_CR1_SPE ≠ 0 →
      (g233_spi_write tr s SPI_DR v).irq = true ∧
      (g233_spi_read (g233_spi_write tr s SPI_DR v) SPI_DR).1.irq =
        false) := by
  refine ⟨?_, ?_, ?_, ?_, ?_⟩
  · simp [g233_spi_write, g233_spi_update_irq, SPI_CR1, SPI_CR2, SPI_SR,
      SPI_DR, SPI_CSCTRL]
  · simp [g233_spi_write, g233_spi_update_irq, SPI_CR1, SPI_CR2, SPI_SR,
      SPI_DR, SPI_CSCTRL]
  · intro h
    obtain ⟨_, e_cr2, _, _, _, e_sr, e_irq⟩ := writeDR_fields tr s v h
    rw [e_irq, e_cr2, e_sr]
  · simp [g233_spi_read, g233_spi_update_irq, SPI_CR1, SPI_CR2, SPI_SR,
      SPI_DR, SPI_CSCTRL]
  · intro h1 h2 h3 h4
    obtain ⟨_, e_cr2, _, _, _, e_sr, e_irq⟩ := writeDR_fields tr s v h4
    constructor
    · rw [e_irq]
      simp [g233_spi_irq_state, h1, sr_after_transfer_rxne]
    · obtain ⟨_, _, r_cr2, _, _, _, _, _, _, _, r_sr, _, r_irq⟩ :=
        readDR_fields (g233_spi_write tr s SPI_DR v)
      rw [r_irq, e_cr2]
      simp [g233_spi_irq_state, h2, h3, sr_clear_rxne]

/-- Witness for C6: a DR write of the RDSR opcode followed by a DR read on
the concrete enabled controller (only receive-interrupt-enable set). -/
theorem C6_witness :
    (spiSys1.cr2 &&& SPI_CR2_RXNEIE ≠ 0) ∧
    (spiSys1.cr2 &&& SPI_CR2_TXEIE = 0) ∧
    (spiSys1.cr2 &&& SPI_CR2_ERRIE = 0) ∧
    (spiSys1.cr1 &&& SPI_CR1_SPE ≠ 0) ∧
    ((g233_spi_write g233_flash_transfer spiSys1 SPI_DR 0x05).irq = true ∧
     (g233_spi_read
        (g233_spi_write g233_flash_transfer spiSys1 SPI_DR 0x05)
        SPI_DR).1.irq = false) :=
  ⟨by decide, by decide, by decide, by decide,
   (C6_interrupt_aggregation g233_flash_transfer spiSys1 0x05).2.2.2.2
     (by decide) (by decide) (by decide) (by decide)⟩

/-- A conjunction of two distinct bits, phrased as the mask test the C
code uses: `v & m == m` for a two-bit mask `m = 2^i | 2^j`. -/
theorem and_mask_pair_iff (v i j : Nat) :
    (v &&& (2 ^ i ||| 2 ^ j) = (2 ^ i ||| 2 ^ j)) ↔
      (v.testBit i = true ∧ v.testBit j = true) := by
  constructor
  · intro h
    constructor
    · have hc := congrArg (fun x => Nat.testBit x i) h
      simpa [Nat.testBit_and, Nat.testBit_or, Nat.testBit_two_pow] using hc
    · have hc := congrArg (fun x => Nat.testBit x j) h
      simpa [Nat.testBit_and, Nat.testBit_or, Nat.testBit_two_pow] using hc
  · rintro ⟨hi, hj⟩
    apply Nat.eq_of_testBit_eq
    intro k
    simp only [Nat.testBit_and, Nat.testBit_or, Nat.testBit_two_pow]
    by_cases hik : i = k
    · subst hik; simp [hi]
    · by_cases hjk : j = k
      · subst hjk; simp [hj]
      · simp [hik, hjk]

/-- The CS0 activity test `(v & 0x11) == 0x11` is the conjunction of the
slot-0 enable bit (bit 0) and active bit (bit 4). -/
theorem csctrl_mask0 (v : Nat) :
    decide (v &&& 0x11 = 0x11) = (v.testBit 0 && v.testBit 4) := by
  have h := and_mask_pair_iff v 0 4
  have e : ((2 : Nat) ^ 0 ||| 2 ^ 4) = 0x11 := by decide
  rw [e] at h
  by_cases hv : v &&& 0x11 = 0x11
  · obtain ⟨h0, h4⟩ := h.mp hv
    simp [hv, h0, h4]
  · have hnb : ¬(v.testBit 0 = true ∧ v.testBit 4 = true) :=
      fun hc => hv (h.mpr hc)
    cases h0 : v.testBit 0 <;> cases h4 : v.testBit 4 <;> simp_all

/-- The CS1 activity test `(v & 0x22) == 0x22` is the conjunction of the
slot-1 enable bit (bit 1) and active bit (bit 5). -/
theorem csctrl_mask1 (v : Nat) :
    decide (v &&& 0x22 = 0x22) = (v.testBit 1 && v.testBit 5) := by
  have h := and_mask_pair_iff v 1 5
  have e : ((2 : Nat) ^ 1 ||| 2 ^ 5) = 0x22 := by decide
  rw [e] at h
  by_cases hv : v &&& 0x22 = 0x22
  · obtain ⟨h1, h5⟩ := h.mp hv
    simp [hv, h1, h5]
  · have hnb : ¬(v.testBit 1 = true ∧ v.testBit 5 = true) :=
      fun hc => hv (h.mpr hc)
    cases h1 : v.testBit 1 <;> cases h5 : v.testBit 5 <;> simp_all

/-- C7 counterexample: slot 2 has a line attached and the written value
0x44 has both the slot-2 enable bit (bit 2) and active bit (bit 6) set, so
the claim predicts the line is driven low (`false`); the code never
touches slots 2 and 3, and the line stays high (`true`). -/
theorem C7_counterexample :
    spiSys1.cs_attached 2 = true ∧
    (g233_spi_write g233_flash_transfer spiSys1 SPI_CSCTRL
        0x44).cs_level 2 = true ∧
    (!((0x44 : Nat).testBit 2 && (0x44 : Nat).testBit 6)) = false := by
  refine ⟨rfl, ?_, by decide⟩
  decide

/-- C7 amended: a CSCTRL write drives an attached slot-0 line to
`!(enable bit 0 ∧ active bit 4)` and an attached slot-1 line to
`!(enable bit 1 ∧ active bit 5)`; the slot-2 and slot-3 lines are left
undriven (their levels are unchanged). -/
theorem C7_select_lines {D : Type} (tr : D → Nat → D × Nat)
    (s : SpiSys D) (v : Nat) :
    (s.cs_attached 0 = true →
      (g233_spi_write tr s SPI_CSCTRL v).cs_level 0 =
        !(v.testBit 0 && v.testBit 4)) ∧
    (s.cs_attached 1 = true →
      (g233_spi_write tr s SPI_CSCTRL v).cs_level 1 =
        !(v.testBit 1 && v.testBit 5)) ∧
    ((g233_spi_write tr s SPI_CSCTRL v).cs_level 2 = s.cs_level 2) ∧
    ((g233_spi_write tr s SPI_CSCTRL v).cs_level 3 = s.cs_level 3) := by
  refine ⟨?_, ?_, ?_, ?_⟩ <;>
    simp only [g233_spi_write, SPI_CR1, SPI_CR2, SPI_SR, SPI_DR,
      SPI_CSCTRL] <;>
    norm_num <;>
    split_ifs <;>
    simp_all [csctrl_mask0, csctrl_mask1]

/-- Witness for C7 (amended): writing 0x33 (slot-0 and slot-1 enable and
active bits) on the concrete system drives lines 0 and 1 low and leaves
lines 2 and 3 at their previous high level. -/
theorem C7_witness :
    spiSys1.cs_attached 0 = true ∧ spiSys1.cs_attached 1 = true ∧
    ((g233_spi_write g233_flash_transfer spiSys1 SPI_CSCTRL
        0x33).cs_level 0 = !((0x33 : Nat).testBit 0 && (0x33 : Nat).testBit 4) ∧
     (g233_spi_write g233_flash_transfer spiSys1 SPI_CSCTRL
        0x33).cs_level 1 = !((0x33 : Nat).testBit 1 && (0x33 : Nat).testBit 5) ∧
     (g233_spi_write g233_flash_transfer spiSys1 SPI_CSCTRL
        0x33).cs_level 2 = spiSys1.cs_level 2 ∧
     (g233_spi_write g233_flash_transfer spiSys1 SPI_CSCTRL
        0x33).cs_level 3 = spiSys1.cs_level 3) :=
  ⟨rfl, rfl,
   (C7_select_lines g233_flash_transfer spiSys1 0x33).1 rfl,
   (C7_select_lines g233_flash_transfer spiSys1 0x33).2.1 rfl,
   (C7_select_lines g233_flash_transfer spiSys1 0x33).2.2.1,
   (C7_select_lines g233_flash_transfer spiSys1 0x33).2.2.2⟩

/-- TXE, UDR, OVR and BSY (bits 1, 2, 3, 7) pass through the `~RXNE`
clearing mask unchanged. -/
theorem sr_clear_rxne_keeps (x : Nat) :
    (x &&& 0xFFFFFFFE).testBit 1 = x.testBit 1 ∧
    (x &&& 0xFFFFFFFE).testBit 2 = x.testBit 2 ∧
    (x &&& 0xFFFFFFFE).testBit 3 = x.testBit 3 ∧
    (x &&& 0xFFFFFFFE).testBit 7 = x.testBit 7 := by
  have t1 : Nat.testBit 4294967294 1 = true := by decide
  have t2 : Nat.testBit 4294967294 2 = true := by decide
  have t3 : Nat.testBit 4294967294 3 = true := by decide
  have t7 : Nat.testBit 4294967294 7 = true := by decide
  refine ⟨?_, ?_, ?_, ?_⟩ <;> simp [Nat.testBit_and, t1, t2, t3, t7]

/-- C10: a DR read is non-destructive on the latch: two successive DR
reads return the same byte; it clears only the RXNE status bit and the
unread-data marker and recomputes the interrupt line, leaving CR1, CR2,
CSCTRL (and its shadow), both data latches, the attached device, the
select lines, and the other status bits (TXE, UDR, OVR, BSY) unchanged. -/
theorem C10_dr_read_frame {D : Type} (s : SpiSys D) :
    ((g233_spi_read s SPI_DR).2 = s.dr_rx) ∧
    ((g233_spi_read (g233_spi_read s SPI_DR).1 SPI_DR).2 = s.dr_rx) ∧
    ((g233_spi_read s SPI_DR).1.cr1 = s.cr1) ∧
    ((g233_spi_read s SPI_DR).1.cr2 = s.cr2) ∧
    ((g233_spi_read s SPI_DR).1.csctrl = s.csctrl) ∧
    ((g233_spi_read s SPI_DR).1.prev_csctrl = s.prev_csctrl) ∧
    ((g233_spi_read s SPI_DR).1.dr_tx = s.dr_tx) ∧
    ((g233_spi_read s SPI_DR).1.dr_rx = s.dr_rx) ∧
    ((g233_spi_read s SPI_DR).1.dev = s.dev) ∧
    ((g233_spi_read s SPI_DR).1.cs_level = s.cs_level) ∧
    ((g233_spi_read s SPI_DR).1.sr.testBit 1 = s.sr.testBit 1) ∧
    ((g233_spi_read s SPI_DR).1.sr.testBit 2 = s.sr.testBit 2) ∧
    ((g233_spi_read s SPI_DR).1.sr.testBit 3 = s.sr.testBit 3) ∧
    ((g233_spi_read s SPI_DR).1.sr.testBit 7 = s.sr.testBit 7) ∧
    ((g233_spi_read s SPI_DR).1.sr &&& SPI_SR_RXNE = 0) ∧
    ((g233_spi_read s SPI_DR).1.rx_fifo_has_data = false) := by
  obtain ⟨e2, ecr1, ecr2, ecs, epcs, etx, erx, edev, eatt, elvl, esr, efifo,
    _⟩ := readDR_fields s
  obtain ⟨e2b, _⟩ := readDR_fields (g233_spi_read s SPI_DR).1
  refine ⟨e2, ?_, ecr1, ecr2, ecs, epcs, etx, erx, edev, elvl, ?_, ?_, ?_,
    ?_, ?_, efifo⟩
  · rw [e2b, erx]
  · rw [esr]; exact (sr_clear_rxne_keeps s.sr).1
  · rw [esr]; exact (sr_clear_rxne_keeps s.sr).2.1
  · rw [esr]; exact (sr_clear_rxne_keeps s.sr).2.2.1
  · rw [esr]; exact (sr_clear_rxne_keeps s.sr).2.2.2
  · rw [esr]; exact sr_clear_rxne s.sr
